import Mathlib

/-!
Shallow embedding of the action-resolution and dispatch engine of
src/mcp_agent.py and src/osdu_agent.py.

JSON values are modelled by the inductive type Json below; Python None is
Json.null, Python dicts are Json.obj association lists with unique keys
(the shape json.loads produces).  Fallible Python expressions (attribute
access on a non-dict, indexing, iteration over a non-iterable) are
modelled with Except PyExc.  Network calls are modelled by oracles: a
function from attempt index to the outcome of that attempt for the two
retrying clients, and a function from uri to result for resources/read.
-/

/-- A JSON value as produced by json.loads: Python None, bool, int, str,
list and dict (association list with unique keys, insertion order). -/
inductive Json where
  | null : Json
  | bool (b : Bool) : Json
  | num (n : Int) : Json
  | str (s : String) : Json
  | arr (xs : List Json) : Json
  | obj (kvs : List (String × Json)) : Json
  deriving Repr

/-- Python equality between a JSON-shaped value and a string literal
(x == "s"): true exactly for the equal string, false for any other type
because Python cross-type equality is false. -/
def Json.eqStr (j : Json) (s : String) : Bool :=
  match j with
  | .str t => t == s
  | _ => false

/-- True exactly when the value is a Python dict (isinstance(x, dict)). -/
def Json.isObj : Json → Bool
  | .obj _ => true
  | _ => false

/-- Python d.get(k, default) on a value known to be a dict; on a non-dict
the callers model the AttributeError separately. -/
def Json.getD (j : Json) (k : String) (d : Json) : Json :=
  match j with
  | .obj kvs => ((kvs.lookup k).getD d)
  | _ => d

/-- Python k in d membership test for dicts. -/
def Json.hasKey (j : Json) (k : String) : Bool :=
  match j with
  | .obj kvs => (kvs.lookup k).isSome
  | _ => false

/-- Python truthiness of a JSON-shaped value (bool(x)). -/
def pyTruthy : Json → Bool
  | .null => false
  | .bool b => b
  | .num n => n != 0
  | .str s => s != ""
  | .arr xs => !xs.isEmpty
  | .obj kvs => !kvs.isEmpty

mutual

/-- Python repr() of a JSON-shaped value, as used when such a value is
interpolated inside a container by an f-string. -/
def pyRepr : Json → String
  | .null => "None"
  | .bool true => "True"
  | .bool false => "False"
  | .num n => toString n
  | .str s => "\x27" ++ s ++ "\x27"
  | .arr xs => "[" ++ pyReprList xs ++ "]"
  | .obj kvs => "\x7b" ++ pyReprKVs kvs ++ "\x7d"

/-- Comma-separated Python repr of list elements. -/
def pyReprList : List Json → String
  | [] => ""
  | [x] => pyRepr x
  | x :: xs => pyRepr x ++ ", " ++ pyReprList xs

/-- Comma-separated Python repr of dict items. -/
def pyReprKVs : List (String × Json) → String
  | [] => ""
  | [(k, v)] => "\x27" ++ k ++ "\x27: " ++ pyRepr v
  | (k, v) :: kvs => "\x27" ++ k ++ "\x27: " ++ pyRepr v ++ ", " ++ pyReprKVs kvs

end

/-- Python str() of a JSON-shaped value, the conversion an f-string
placeholder applies: strings are inserted verbatim, None prints as None,
containers print as their repr. -/
def pyStr : Json → String
  | .null => "None"
  | .bool true => "True"
  | .bool false => "False"
  | .num n => toString n
  | .str s => s
  | .arr xs => pyRepr (.arr xs)
  | .obj kvs => pyRepr (.obj kvs)

/-- Escape a string for JSON output the way json.dumps does (backslash
and double quote; the strings exercised here contain no control chars). -/
def escapeJson (s : String) : String :=
  s.toList.foldr
    (fun c acc =>
      if c = '\\' then "\\\\" ++ acc
      else if c = '"' then "\\\"" ++ acc
      else c.toString ++ acc) ""

mutual

/-- Python json.dumps with default separators, modelled from the json
standard library used by both agents. -/
def pyJsonDumps : Json → String
  | .null => "null"
  | .bool true => "true"
  | .bool false => "false"
  | .num n => toString n
  | .str s => "\"" ++ escapeJson s ++ "\""
  | .arr xs => "[" ++ pyJsonDumpsList xs ++ "]"
  | .obj kvs => "\x7b" ++ pyJsonDumpsKVs kvs ++ "\x7d"

/-- Comma-separated json.dumps of list elements. -/
def pyJsonDumpsList : List Json → String
  | [] => ""
  | [x] => pyJsonDumps x
  | x :: xs => pyJsonDumps x ++ ", " ++ pyJsonDumpsList xs

/-- Comma-separated json.dumps of dict items. -/
def pyJsonDumpsKVs : List (String × Json) → String
  | [] => ""
  | [(k, v)] => "\"" ++ escapeJson k ++ "\": " ++ pyJsonDumps v
  | (k, v) :: kvs =>
      "\"" ++ escapeJson k ++ "\": " ++ pyJsonDumps v ++ ", " ++ pyJsonDumpsKVs kvs

end

/-- Exceptions the embedded Python expressions can raise. -/
inductive PyExc where
  | attributeError : PyExc
  | typeError : PyExc
  | indexError : PyExc
  | keyError : PyExc
  deriving DecidableEq, Repr

/-- Python x.get(k, d): returns the entry or the default on a dict,
raises AttributeError on anything else. -/
def pyGet (j : Json) (k : String) (d : Json) : Except PyExc Json :=
  match j with
  | .obj kvs => .ok ((kvs.lookup k).getD d)
  | _ => .error .attributeError

/-- Python x[0]: head of a list, one-character string of a nonempty
string, KeyError on a dict (JSON keys are strings), TypeError otherwise. -/
def pyIndexZero : Json → Except PyExc Json
  | .arr [] => .error .indexError
  | .arr (x :: _) => .ok x
  | .str s =>
      match s.toList with
      | [] => .error .indexError
      | c :: _ => .ok (.str c.toString)
  | .obj _ => .error .keyError
  | _ => .error .typeError

/-- Python iteration (for x in v): lists yield elements, strings yield
one-character strings, dicts yield their keys, everything else raises
TypeError. -/
def pyIter : Json → Except PyExc (List Json)
  | .arr xs => .ok xs
  | .str s => .ok (s.toList.map (fun c => Json.str c.toString))
  | .obj kvs => .ok (kvs.map (fun kv => Json.str kv.1))
  | _ => .error .typeError

/-- Drop leading JSON whitespace. -/
def skipWs : List Char → List Char
  | [] => []
  | c :: cs => if c = ' ' ∨ c = '\t' ∨ c = '\n' ∨ c = '\r' then skipWs cs else c :: cs

/-- Numeric value of a digit run. -/
def digitsToNat (ds : List Char) : Nat :=
  ds.foldl (fun a c => a * 10 + (c.toNat - 48)) 0

/-- Body of a JSON string literal after the opening quote: characters up
to the closing quote, with the common backslash escapes. -/
def parseStringBody : List Char → Option (String × List Char)
  | [] => none
  | '"' :: rest => some ("", rest)
  | '\\' :: e :: rest =>
      match parseStringBody rest with
      | none => none
      | some (s, rest') =>
          if e = '"' then some ("\"" ++ s, rest')
          else if e = '\\' then some ("\\" ++ s, rest')
          else if e = 'n' then some ("\n" ++ s, rest')
          else if e = 't' then some ("\t" ++ s, rest')
          else none
  | c :: rest =>
      match parseStringBody rest with
      | none => none
      | some (s, rest') => some (c.toString ++ s, rest')

mutual

/-- Modelled from the spec and from the json standard library consumed by
both agents: recursive-descent parse of one JSON value (fuel-bounded;
integer numerals; the escapes of parseStringBody), returning the value
and the unconsumed input. -/
def parseValue : Nat → List Char → Option (Json × List Char)
  | 0, _ => none
  | Nat.succ fuel, cs =>
    match skipWs cs with
    | [] => none
    | c :: cs' =>
      if c = 'n' then
        match cs' with
        | 'u' :: 'l' :: 'l' :: rest => some (.null, rest)
        | _ => none
      else if c = 't' then
        match cs' with
        | 'r' :: 'u' :: 'e' :: rest => some (.bool true, rest)
        | _ => none
      else if c = 'f' then
        match cs' with
        | 'a' :: 'l' :: 's' :: 'e' :: rest => some (.bool false, rest)
        | _ => none
      else if c = '"' then
        match parseStringBody cs' with
        | some (s, rest) => some (.str s, rest)
        | none => none
      else if c = '-' then
        match List.span Char.isDigit cs' with
        | ([], _) => none
        | (ds, rest) => some (.num (-(digitsToNat ds : Int)), rest)
      else if c.isDigit then
        match List.span Char.isDigit (c :: cs') with
        | (ds, rest) => some (.num (digitsToNat ds), rest)
      else if c = '[' then
        match skipWs cs' with
        | ']' :: rest => some (.arr [], rest)
        | _ =>
          match parseArrayItems fuel cs' with
          | some (xs, rest) => some (.arr xs, rest)
          | none => none
      else if c = '\x7b' then
        match skipWs cs' with
        | '\x7d' :: rest => some (.obj [], rest)
        | _ =>
          match parseObjItems fuel cs' with
          | some (kvs, rest) => some (.obj kvs, rest)
          | none => none
      else none

/-- One or more comma-separated array elements followed by the closing
bracket. -/
def parseArrayItems : Nat → List Char → Option (List Json × List Char)
  | 0, _ => none
  | Nat.succ fuel, cs =>
    match parseValue fuel cs with
    | none => none
    | some (v, rest) =>
      match skipWs rest with
      | ',' :: rest' =>
          match parseArrayItems fuel rest' with
          | some (vs, rest'') => some (v :: vs, rest'')
          | none => none
      | ']' :: rest' => some ([v], rest')
      | _ => none

/-- One or more comma-separated key-value pairs followed by the closing
brace. -/
def parseObjItems : Nat → List Char → Option (List (String × Json) × List Char)
  | 0, _ => none
  | Nat.succ fuel, cs =>
    match skipWs cs with
    | '"' :: cs' =>
      match parseStringBody cs' with
      | none => none
      | some (k, rest) =>
        match skipWs rest with
        | ':' :: rest' =>
          match parseValue fuel rest' with
          | none => none
          | some (v, rest'') =>
            match skipWs rest'' with
            | ',' :: rest3 =>
                match parseObjItems fuel rest3 with
                | some (kvs, rest4) => some ((k, v) :: kvs, rest4)
                | none => none
            | '\x7d' :: rest3 => some ([(k, v)], rest3)
            | _ => none
        | _ => none
    | _ => none

end

/-- Python json.loads: parse exactly one JSON value with nothing but
whitespace after it, or fail. -/
def jsonParse (s : String) : Option Json :=
  let cs := s.toList
  match parseValue (2 * cs.length + 2) cs with
  | some (v, rest) => if (skipWs rest).isEmpty then some v else none
  | none => none

/-- Outcome of one network attempt by a retrying client: a raised
exception (connection error or timeout), or an HTTP response with a
status code and a body that parses as JSON or does not (none models a
body on which response.json() raises). -/
inductive Attempt where
  | exc : Attempt
  | resp (code : Nat) (body : Option Json) : Attempt

/-- One attempt of send_mcp_request (src/mcp_agent.py lines 71-81,
src/osdu_agent.py lines 73-83): some result when the attempt returns,
none when it falls through to the next retry.  A 200 response whose body
is not a dict raises at the .get call inside the try and is retried. -/
def mcpRequestStep (a : Attempt) : Option Json :=
  match a with
  | .exc => none
  | .resp code body =>
    if code = 200 then
      match body with
      | none => none
      | some (.obj kvs) => some ((kvs.lookup "result").getD (.obj []))
      | some _ => none
    else none

/-- Retry loop of send_mcp_request: attempt index i, remaining fuel;
exhaustion returns the empty dict (line 83 of src/mcp_agent.py). -/
def sendLoop (attempts : Nat → Attempt) : Nat → Nat → Json
  | _, 0 => .obj []
  | i, Nat.succ fuel =>
    match mcpRequestStep (attempts i) with
    | some v => v
    | none => sendLoop attempts (i + 1) fuel

/-- send_mcp_request of src/mcp_agent.py lines 61-83 and (identically)
src/osdu_agent.py lines 63-85, with max_attempts = 3, parameterized by
the outcome each attempt would observe. -/
def send_mcp_request (attempts : Nat → Attempt) : Json :=
  sendLoop attempts 0 3

/-- Content extraction of call_grok_3 on a 200 response (line 110 of
src/mcp_agent.py): response.json().get("choices", [one empty dict])[0]
.get("message", empty dict).get("content", the two-character string of
an empty JSON object). -/
def extractContent (body : Json) : Except PyExc Json := do
  let choices ← pyGet body "choices" (Json.arr [Json.obj []])
  let first ← pyIndexZero choices
  let message ← pyGet first "message" (Json.obj [])
  pyGet message "content" (Json.str "\x7b\x7d")

/-- One attempt of call_grok_3 (src/mcp_agent.py lines 107-121): some
value when the attempt returns, none when it falls through to the next
retry.  Failures of extraction and json.loads on a non-string content
raise inside the try and are retried; a JSONDecodeError on a string
content returns the invalid-JSON error object immediately. -/
def grokAttemptStep (a : Attempt) : Option Json :=
  match a with
  | .exc => none
  | .resp code body =>
    if code = 200 then
      match body with
      | none => none
      | some b =>
        match extractContent b with
        | .error _ => none
        | .ok (.str s) =>
          match jsonParse s with
          | some v => some v
          | none =>
              some (.obj [("action", .str "error"),
                          ("message", .str "Invalid JSON response from Grok 3")])
        | .ok _ => none
    else none

/-- Retry loop of call_grok_3: attempt index, remaining fuel; exhaustion
returns the error object carrying failMsg. -/
def grokLoop (failMsg : String) (attempts : Nat → Attempt) : Nat → Nat → Json
  | _, 0 => .obj [("action", .str "error"), ("message", .str failMsg)]
  | i, Nat.succ fuel =>
    match grokAttemptStep (attempts i) with
    | some v => v
    | none => grokLoop failMsg attempts (i + 1) fuel

namespace Mcp

/-- call_grok_3 of src/mcp_agent.py lines 86-123 with max_retries = 3;
exhaustion returns the error object with message Failed to process
prompt (line 123). -/
def call_grok_3 (attempts : Nat → Attempt) : Json :=
  grokLoop "Failed to process prompt" attempts 0 3

end Mcp

namespace Osdu

/-- call_grok_3 of src/osdu_agent.py lines 88-125 with max_retries = 3;
exhaustion returns the error object with message Failed to process
query (line 125). -/
def call_grok_3 (attempts : Nat → Attempt) : Json :=
  grokLoop "Failed to process query" attempts 0 3

end Osdu

/-- A LangChain tool as discovered from the catalog: name and
description (the invocable handler is irrelevant to plan). -/
structure Tool where
  name : String
  description : String
  deriving DecidableEq, Repr

/-- The value plan returns: AgentFinish with its output payload and log,
or AgentAction with the tool name, tool input and log. -/
inductive PlanResult where
  | finish (output : Json) (log : String) : PlanResult
  | action (tool : String) (toolInput : Json) (log : String) : PlanResult

namespace Mcp

/-- The single-record normalization of src/mcp_agent.py line 174: when
the response object has no actions list, the object itself becomes one
record with defaulted fields. -/
def singleRecord (kvs : List (String × Json)) : Json :=
  .obj [("action", (kvs.lookup "action").getD .null),
        ("type", (kvs.lookup "type").getD .null),
        ("tool_name", (kvs.lookup "tool_name").getD .null),
        ("tool_input", (kvs.lookup "tool_input").getD (.obj [])),
        ("resource_uri", (kvs.lookup "resource_uri").getD (.str "")),
        ("message", (kvs.lookup "message").getD (.str ""))]

/-- The inner tool scan of src/mcp_agent.py lines 198-207: the first
name match with a dict input returns the AgentAction; a name match with
a non-dict input appends an invalid-input entry and keeps scanning;
falling off the loop appends the not-found entry (lines 206-207 run
whenever the loop does not return, even after a name match). -/
def scanTools (tools : List Tool) (tool_name tool_input : Json) :
    Sum PlanResult (List Json) :=
  match tools with
  | [] => .inr [.str ("Error: Tool " ++ pyStr tool_name ++ " not found")]
  | t :: ts =>
    if tool_name.eqStr t.name then
      if tool_input.isObj then
        .inl (.action t.name tool_input ("Executor: Invoking " ++ t.name))
      else
        match scanTools ts tool_name tool_input with
        | .inl act => .inl act
        | .inr entries =>
            .inr (.str ("Error: Invalid tool input for " ++ pyStr tool_name) :: entries)
    else scanTools ts tool_name tool_input

/-- The dispatch loop of src/mcp_agent.py lines 178-218: one pass over
the action records, accumulating combined_output; a matched tool call
with a dict input returns early (Sum.inl); a record that is not a dict
raises AttributeError at action_item.get. -/
def dispatchActions (tools : List Tool) (resources prompts : List String)
    (resourceRead : Json → Json) :
    List Json → List Json → Except PyExc (Sum PlanResult (List Json))
  | acc, [] => .ok (.inr acc)
  | acc, item :: rest =>
    match item with
    | .obj kvs =>
      let action := (kvs.lookup "action").getD .null
      if action.eqStr "list" then
        let ty := (kvs.lookup "type").getD .null
        if ty.eqStr "tools" then
          dispatchActions tools resources prompts resourceRead
            (acc ++ (if tools.isEmpty then [.str "No tools available"]
                     else tools.map (fun t => .str (t.name ++ ": " ++ t.description)))) rest
        else if ty.eqStr "resources" then
          dispatchActions tools resources prompts resourceRead
            (acc ++ (if resources.isEmpty then [.str "No resources available"]
                     else resources.map .str)) rest
        else if ty.eqStr "prompts" then
          dispatchActions tools resources prompts resourceRead
            (acc ++ (if prompts.isEmpty then [.str "No prompts available"]
                     else prompts.map .str)) rest
        else
          dispatchActions tools resources prompts resourceRead
            (acc ++ [.str ("Error: Invalid list type " ++ pyStr ty)]) rest
      else if action.eqStr "tool" then
        let tool_name := (kvs.lookup "tool_name").getD .null
        let tool_input := (kvs.lookup "tool_input").getD (.obj [])
        match scanTools tools tool_name tool_input with
        | .inl act => .ok (.inl act)
        | .inr entries =>
            dispatchActions tools resources prompts resourceRead (acc ++ entries) rest
      else if action.eqStr "resource" then
        let uri := (kvs.lookup "resource_uri").getD (.str "")
        if pyTruthy uri then
          dispatchActions tools resources prompts resourceRead
            (acc ++ [resourceRead uri]) rest
        else
          dispatchActions tools resources prompts resourceRead
            (acc ++ [.str "Error: No resource URI provided"]) rest
      else
        dispatchActions tools resources prompts resourceRead
          (acc ++ [.str ("Error: Invalid action " ++ pyStr action)]) rest
    | _ => .error .attributeError

/-- The result formatting tail of src/mcp_agent.py lines 220-236: a
nonempty combined output goes through the second completion pass, whose
value is accepted only when it is a dict carrying both a tools and a
resources key; otherwise the serialized combined output is returned;
an empty combined output yields the no-action sentinel. -/
def formatOutput (combined : List Json) (fmt : Json) : PlanResult :=
  if combined.isEmpty then
    .finish (.str "No relevant tool or action found") "Executor: No action taken"
  else if fmt.isObj && fmt.hasKey "tools" && fmt.hasKey "resources" then
    .finish (.str (pyJsonDumps fmt)) "Executor: Returning formatted results"
  else
    .finish (.str (pyJsonDumps (.arr combined)))
      "Executor: Returning unformatted results due to invalid format"

/-- ExecutorAgent.plan of src/mcp_agent.py lines 147-236, from the point
the decision value is in hand (the prompt assembly above it is pure
string building that only feeds the completion oracle).  grok is the
value call_grok_3 returned for the decision call, fmt the value it would
return for the formatting call, resourceRead the result the transport
client would return for a resources/read on a given uri.  The debug
print on line 164 evaluates grok_response.get, so a non-dict decision
value raises AttributeError there, before the isinstance validation on
line 167 (which is consequently unreachable for non-dicts). -/
def plan (tools : List Tool) (resources prompts : List String)
    (grok fmt : Json) (resourceRead : Json → Json) : Except PyExc PlanResult :=
  match grok with
  | .obj kvs =>
    if ((kvs.lookup "action").getD .null).eqStr "error" then
      .ok (.finish ((kvs.lookup "message").getD (.str "Query processing failed"))
        "Executor: Error from Grok 3")
    else
      let actions : Json :=
        match kvs.lookup "actions" with
        | some v => v
        | none => .arr [singleRecord kvs]
      match pyIter actions with
      | .error e => .error e
      | .ok items =>
        match dispatchActions tools resources prompts resourceRead [] items with
        | .error e => .error e
        | .ok (.inl act) => .ok act
        | .ok (.inr combined) => .ok (formatOutput combined fmt)
  | _ => .error .attributeError

end Mcp

namespace Osdu

/-- The tool scan of src/osdu_agent.py lines 182-190: the first name
match returns immediately, an AgentAction for a dict input or the
invalid-input finish for anything else; no match gives the not-found
finish. -/
def scanTools (tools : List Tool) (tool_name tool_input : Json) : PlanResult :=
  match tools with
  | [] =>
      .finish (.str ("Error: Tool " ++ pyStr tool_name ++ " not found"))
        "Executor: Tool not found"
  | t :: ts =>
    if tool_name.eqStr t.name then
      if tool_input.isObj then
        .action t.name tool_input ("Executor: Invoking " ++ t.name)
      else
        .finish (.str ("Error: Invalid tool input for " ++ pyStr tool_name))
          "Executor: Invalid tool input"
    else scanTools ts tool_name tool_input

/-- ExecutorAgent.plan of src/osdu_agent.py lines 139-201, from the
point the decision value is in hand.  The debug print on line 158
evaluates grok_response.get, so a non-dict decision value raises
AttributeError there, before the isinstance validation on line 161.
A list action with an unrecognized type and any unrecognized action tag
both fall through to the final no-action finish on line 201. -/
def plan (tools : List Tool) (resources prompts : List String)
    (grok : Json) (resourceRead : Json → Json) : Except PyExc PlanResult :=
  match grok with
  | .obj kvs =>
    let action := (kvs.lookup "action").getD .null
    if action.eqStr "error" then
      .ok (.finish ((kvs.lookup "message").getD (.str "Query processing failed"))
        "Executor: Error from Grok 3")
    else if action.eqStr "list" then
      let ty := (kvs.lookup "type").getD .null
      if ty.eqStr "tools" then
        .ok (if tools.isEmpty then
               .finish (.str "No tools available") "Executor: No tools found"
             else
               .finish (.arr (tools.map (fun t => .str (t.name ++ ": " ++ t.description))))
                 "Executor: Returning tool list")
      else if ty.eqStr "resources" then
        .ok (.finish (.arr (if resources.isEmpty then [.str "No resources available"]
                            else resources.map .str)) "Executor: Returning resource list")
      else if ty.eqStr "prompts" then
        .ok (.finish (.arr (if prompts.isEmpty then [.str "No prompts available"]
                            else prompts.map .str)) "Executor: Returning prompt list")
      else
        .ok (.finish (.str "No relevant tool or action found") "Executor: No action taken")
    else if action.eqStr "tool" then
      let tool_name := (kvs.lookup "tool_name").getD .null
      let tool_input := (kvs.lookup "tool_input").getD (.obj [])
      .ok (scanTools tools tool_name tool_input)
    else if action.eqStr "resource" then
      let uri := (kvs.lookup "resource_uri").getD (.str "")
      if pyTruthy uri then
        .ok (.finish (resourceRead uri) ("Executor: Reading resource " ++ pyStr uri))
      else
        .ok (.finish (.str "Error: No resource URI provided") "Executor: Missing resource URI")
    else
      .ok (.finish (.str "No relevant tool or action found") "Executor: No action taken")
  | _ => .error .attributeError

end Osdu

/-- A well-formed action record per the Decision Directive data model of
the spec: exactly one tag with its payload fields. -/
inductive ActionRecord where
  | list (kind : String) : ActionRecord
  | invoke_tool (tool_name : String) (tool_input : Json) : ActionRecord
  | read_resource (resource_uri : String) : ActionRecord
  | error (message : String) : ActionRecord

/-- The JSON shape the resolver hands the dispatcher for a record (the
tag spelling the completion service uses). -/
def ActionRecord.toJson : ActionRecord → Json
  | .list k => .obj [("action", .str "list"), ("type", .str k)]
  | .invoke_tool n i => .obj [("action", .str "tool"), ("tool_name", .str n), ("tool_input", i)]
  | .read_resource u => .obj [("action", .str "resource"), ("resource_uri", .str u)]
  | .error m => .obj [("action", .str "error"), ("message", .str m)]

/-- A record that triggers the short-circuit tool call: tag tool, dict
input, name matching some catalog tool. -/
def shortCircuits (tools : List Tool) : ActionRecord → Bool
  | .invoke_tool n i => i.isObj && tools.any (fun t => t.name == n)
  | _ => false

/-- A failing transport attempt in the sense of the spec: transport
error or timeout (a raised exception), non-200 status, or a failure to
parse the body as the expected reply shape (unparseable body, or a body
that is not a dict so that the result lookup raises). -/
def attemptFails : Attempt → Bool
  | .exc => true
  | .resp code body =>
      code != 200 ||
        (match body with
         | none => true
         | some b => !b.isObj)

/-- A completion attempt with no successful call in the sense of the
spec: transport error or non-200 status. -/
def attemptNoSuccess : Attempt → Bool
  | .exc => true
  | .resp code _ => code != 200

/-- A completion attempt is object-safe when any value it can make
call_grok_3 return is a dict: it fails outright, or its content parses
to a JSON object, or parsing fails (yielding the error object). -/
def grokStepObjSafe (a : Attempt) : Bool :=
  match grokAttemptStep a with
  | some v => v.isObj
  | none => true

theorem mcpRequestStep_eq_none_of_fails (a : Attempt) (h : attemptFails a = true) :
    mcpRequestStep a = none := by
  cases a with
  | exc => rfl
  | resp code body =>
    by_cases hc : code = 200
    · subst hc
      cases body with
      | none => rfl
      | some b =>
        cases b with
        | obj kvs => simp [attemptFails, Json.isObj] at h
        | null => rfl
        | bool x => rfl
        | num x => rfl
        | str x => rfl
        | arr x => rfl
    · simp [mcpRequestStep, hc]

theorem grokAttemptStep_eq_none_of_noSuccess (a : Attempt)
    (h : attemptNoSuccess a = true) : grokAttemptStep a = none := by
  cases a with
  | exc => rfl
  | resp code body =>
    have hc : code ≠ 200 := by simpa [attemptNoSuccess] using h
    simp [grokAttemptStep, hc]

/-- C3: if every one of the 3 attempts of send_mcp_request fails
(exception, non-200 status, or body-parse failure), the call returns the
empty mapping; no exception escapes, every raising sub-expression being
inside the per-attempt handler that the retry branches of mcpRequestStep
model. -/
theorem c3_transport_exhaustion_returns_empty (attempts : Nat → Attempt)
    (h0 : attemptFails (attempts 0) = true)
    (h1 : attemptFails (attempts 1) = true)
    (h2 : attemptFails (attempts 2) = true) :
    send_mcp_request attempts = Json.obj [] := by
  have e0 := mcpRequestStep_eq_none_of_fails _ h0
  have e1 := mcpRequestStep_eq_none_of_fails _ h1
  have e2 := mcpRequestStep_eq_none_of_fails _ h2
  simp [send_mcp_request, sendLoop, e0, e1, e2]

/-- Witness for C3 at attempts that all raise. -/
theorem c3_witness : send_mcp_request (fun _ => Attempt.exc) = Json.obj [] :=
  c3_transport_exhaustion_returns_empty (fun _ => Attempt.exc) rfl rfl rfl

/-- C5 counterexample: with every attempt failing, the exhaustion value
of the mcp variant carries the message Failed to process prompt and the
osdu variant Failed to process query; neither is the object with message
Failed to process request that the claim states. -/
theorem c5_counterexample :
    Mcp.call_grok_3 (fun _ => Attempt.exc)
      = Json.obj [("action", .str "error"), ("message", .str "Failed to process prompt")]
    ∧ Osdu.call_grok_3 (fun _ => Attempt.exc)
      = Json.obj [("action", .str "error"), ("message", .str "Failed to process query")]
    ∧ Mcp.call_grok_3 (fun _ => Attempt.exc)
      ≠ Json.obj [("action", .str "error"), ("message", .str "Failed to process request")]
    ∧ Osdu.call_grok_3 (fun _ => Attempt.exc)
      ≠ Json.obj [("action", .str "error"), ("message", .str "Failed to process request")] := by
  refine ⟨rfl, rfl, ?_, ?_⟩ <;> simp [Mcp.call_grok_3, Osdu.call_grok_3, grokLoop, grokAttemptStep]

/-- C5 as amended: if all 3 attempts fail with non-200 status or
transport error, call_grok_3 returns the error object whose message is
Failed to process prompt in mcp_agent and Failed to process query in
osdu_agent. -/
theorem c5_exhaustion_messages (attempts : Nat → Attempt)
    (h0 : attemptNoSuccess (attempts 0) = true)
    (h1 : attemptNoSuccess (attempts 1) = true)
    (h2 : attemptNoSuccess (attempts 2) = true) :
    Mcp.call_grok_3 attempts
      = Json.obj [("action", .str "error"), ("message", .str "Failed to process prompt")]
    ∧ Osdu.call_grok_3 attempts
      = Json.obj [("action", .str "error"), ("message", .str "Failed to process query")] := by
  have e0 := grokAttemptStep_eq_none_of_noSuccess _ h0
  have e1 := grokAttemptStep_eq_none_of_noSuccess _ h1
  have e2 := grokAttemptStep_eq_none_of_noSuccess _ h2
  constructor <;> simp [Mcp.call_grok_3, Osdu.call_grok_3, grokLoop, e0, e1, e2]

/-- Witness for the amended C5 at attempts that all raise. -/
theorem c5_witness :
    Mcp.call_grok_3 (fun _ => Attempt.exc)
      = Json.obj [("action", .str "error"), ("message", .str "Failed to process prompt")]
    ∧ Osdu.call_grok_3 (fun _ => Attempt.exc)
      = Json.obj [("action", .str "error"), ("message", .str "Failed to process query")] :=
  c5_exhaustion_messages (fun _ => Attempt.exc) rfl rfl rfl

/-- A 200 response body whose first choice message content is the given
string. -/
def body200 (content : String) : Json :=
  .obj [("choices", .arr [.obj [("message", .obj [("content", .str content)])]])]

/-- C4 counterexample: a 200 response whose content parses as a JSON
array makes call_grok_3 return that array, which is not a mapping. -/
theorem c4_counterexample :
    Mcp.call_grok_3 (fun _ => .resp 200 (some (body200 "[1, 2]")))
      = Json.arr [.num 1, .num 2]
    ∧ Json.isObj (Mcp.call_grok_3 (fun _ => .resp 200 (some (body200 "[1, 2]"))))
      = false :=
  ⟨rfl, rfl⟩

theorem grokLoop_isObj (failMsg : String) (attempts : Nat → Attempt) :
    ∀ (fuel i : Nat), (∀ j, i ≤ j → j < i + fuel → grokStepObjSafe (attempts j) = true) →
    Json.isObj (grokLoop failMsg attempts i fuel) = true := by
  intro fuel
  induction fuel with
  | zero => intro i _; rfl
  | succ n ih =>
    intro i h
    simp only [grokLoop]
    cases e : grokAttemptStep (attempts i) with
    | some v =>
      have hs := h i (Nat.le_refl i) (by omega)
      simpa [grokStepObjSafe, e] using hs
    | none => exact ih (i + 1) (fun j hj1 hj2 => h j (by omega) (by omega))

/-- C4 as amended: call_grok_3 returns the parsed content value as-is,
so its result is a mapping provided every attempt is object-safe (in
particular whenever a successful content parses as a JSON object, and in
all failure paths); a 200 content parsing as an array, string, number,
boolean or null is returned unchanged as a non-mapping. -/
theorem c4_complete_obj_when_safe (attempts : Nat → Attempt)
    (h0 : grokStepObjSafe (attempts 0) = true)
    (h1 : grokStepObjSafe (attempts 1) = true)
    (h2 : grokStepObjSafe (attempts 2) = true) :
    Json.isObj (Mcp.call_grok_3 attempts) = true := by
  refine grokLoop_isObj _ attempts 3 0 ?_
  intro j _ hj
  interval_cases j <;> assumption

/-- Witness for the amended C4 at attempts that all raise. -/
theorem c4_witness : Json.isObj (Mcp.call_grok_3 (fun _ => Attempt.exc)) = true :=
  c4_complete_obj_when_safe (fun _ => Attempt.exc) rfl rfl rfl

/-- A 200 response body that is a dict but does not carry the
choices[0].message.content path in a readable way short of raising:
choices absent, or the first choice a dict without message, or the
message a dict without content. -/
def bodyLacksContentPath : Json → Bool
  | .obj kvs =>
    match kvs.lookup "choices" with
    | none => true
    | some (.arr (first :: _)) =>
      match first with
      | .obj kvs2 =>
        match kvs2.lookup "message" with
        | none => true
        | some (.obj kvs3) => (kvs3.lookup "content").isNone
        | some _ => false
      | _ => false
    | some _ => false
  | _ => false

theorem extractContent_default (b : Json) (h : bodyLacksContentPath b = true) :
    extractContent b = .ok (.str "\x7b\x7d") := by
  cases b with
  | obj kvs =>
    simp only [bodyLacksContentPath] at h
    cases hc : kvs.lookup "choices" with
    | none =>
      simp only [extractContent, pyGet, hc, Option.getD_none, bind, Except.bind]
      rfl
    | some v =>
      rw [hc] at h
      cases v with
      | arr xs =>
        cases xs with
        | nil => simp at h
        | cons first rest =>
          cases first with
          | obj kvs2 =>
            dsimp only at h
            cases hm : kvs2.lookup "message" with
            | none =>
              simp only [extractContent, pyGet, hc, Option.getD_some, bind, Except.bind,
                pyIndexZero, hm, Option.getD_none]
              rfl
            | some w =>
              rw [hm] at h
              cases w with
              | obj kvs3 =>
                have h3 : kvs3.lookup "content" = none := by
                  simpa [Option.isNone_iff_eq_none] using h
                simp only [extractContent, pyGet, hc, Option.getD_some, bind, Except.bind,
                  pyIndexZero, hm, h3, Option.getD_none]
              | null => simp at h
              | bool x => simp at h
              | num x => simp at h
              | str x => simp at h
              | arr x => simp at h
          | null => simp at h
          | bool x => simp at h
          | num x => simp at h
          | str x => simp at h
          | arr x => simp at h
      | null => simp at h
      | bool x => simp at h
      | num x => simp at h
      | str x => simp at h
      | obj x => simp at h
  | null => simp [bodyLacksContentPath] at h
  | bool x => simp [bodyLacksContentPath] at h
  | num x => simp [bodyLacksContentPath] at h
  | str x => simp [bodyLacksContentPath] at h
  | arr x => simp [bodyLacksContentPath] at h

/-- C10: a 200 response whose dict body lacks the
choices/message/content path makes call_grok_3 return the empty mapping,
parsed from the default content string; the result is the very value a
deliberate empty-object answer would produce, so the caller cannot tell
the two apart. -/
theorem c10_missing_path_empty_mapping (b : Json) (attempts : Nat → Attempt)
    (hb : bodyLacksContentPath b = true)
    (h0 : attempts 0 = .resp 200 (some b)) :
    Mcp.call_grok_3 attempts = Json.obj []
    ∧ Mcp.call_grok_3 attempts
        = Mcp.call_grok_3 (fun _ => .resp 200 (some (body200 "\x7b\x7d"))) := by
  have hc := extractContent_default b hb
  have hp : jsonParse "\x7b\x7d" = some (Json.obj []) := rfl
  have hstep : grokAttemptStep (attempts 0) = some (Json.obj []) := by
    rw [h0]
    simp [grokAttemptStep, hc, hp]
  have hmain : Mcp.call_grok_3 attempts = Json.obj [] := by
    simp [Mcp.call_grok_3, grokLoop, hstep]
  exact ⟨hmain, by rw [hmain]; rfl⟩

/-- Witness for C10 at a body with no choices key. -/
theorem c10_witness :
    Mcp.call_grok_3 (fun _ => .resp 200 (some (Json.obj []))) = Json.obj []
    ∧ Mcp.call_grok_3 (fun _ => .resp 200 (some (Json.obj [])))
        = Mcp.call_grok_3 (fun _ => .resp 200 (some (body200 "\x7b\x7d"))) :=
  c10_missing_path_empty_mapping (Json.obj []) (fun _ => .resp 200 (some (Json.obj [])))
    rfl rfl

/-- C7: when the decision value is the error object with message m, both
plan variants finish immediately with output exactly m; the result does
not depend on the formatting-pass value or on the transport oracle, so
no dispatch and no formatting call can influence it. -/
theorem c7_error_directive_verbatim (tools : List Tool)
    (resources prompts : List String) (m : String) (fmt : Json)
    (resourceRead : Json → Json) :
    Mcp.plan tools resources prompts
        (.obj [("action", .str "error"), ("message", .str m)]) fmt resourceRead
      = .ok (.finish (.str m) "Executor: Error from Grok 3")
    ∧ Osdu.plan tools resources prompts
        (.obj [("action", .str "error"), ("message", .str m)]) resourceRead
      = .ok (.finish (.str m) "Executor: Error from Grok 3") :=
  ⟨rfl, rfl⟩

/-- C8: on a nonempty combined output, the formatting value is accepted
exactly when it is a dict with both a tools and a resources key, and the
final output is then its serialization; otherwise the serialization of
the raw combined output is returned. -/
theorem c8_formatting_validation (combined : List Json) (fmt : Json)
    (hne : combined ≠ []) :
    ((fmt.isObj && fmt.hasKey "tools" && fmt.hasKey "resources") = false →
      Mcp.formatOutput combined fmt
        = .finish (.str (pyJsonDumps (.arr combined)))
            "Executor: Returning unformatted results due to invalid format")
    ∧ ((fmt.isObj && fmt.hasKey "tools" && fmt.hasKey "resources") = true →
      Mcp.formatOutput combined fmt
        = .finish (.str (pyJsonDumps fmt)) "Executor: Returning formatted results") := by
  have hne' : combined.isEmpty = false := by
    simpa [List.isEmpty_iff] using hne
  constructor <;> intro h <;> simp [Mcp.formatOutput, hne', h]

/-- Witness for C8: a singleton dispatch result and a formatting value
lacking both fields falls back to the serialized raw result. -/
theorem c8_witness :
    Mcp.formatOutput [.str "x"] (.obj [])
      = .finish (.str (pyJsonDumps (.arr [.str "x"])))
          "Executor: Returning unformatted results due to invalid format" :=
  (c8_formatting_validation [.str "x"] (.obj []) (List.cons_ne_nil _ _)).1 rfl

/-- C6 counterexample: a record tagged error with message boom inside an
actions sequence is dispatched through the final else branch, so the
generic invalid-action entry is appended and the carried message is
dropped. -/
theorem c6_counterexample :
    Mcp.dispatchActions [] [] [] (fun _ => Json.obj []) []
        [(ActionRecord.error "boom").toJson]
      = .ok (.inr [.str "Error: Invalid action error"])
    ∧ Mcp.dispatchActions [] [] [] (fun _ => Json.obj []) []
        [(ActionRecord.error "boom").toJson]
      ≠ .ok (.inr [.str "boom"]) := by
  refine ⟨rfl, ?_⟩
  simp [Mcp.dispatchActions, ActionRecord.toJson, Json.eqStr, pyStr]

/-- C6 as amended: a record tagged error inside an actions sequence is
treated as unrecognized by the per-record dispatcher and contributes
exactly the generic entry Error: Invalid action error, whatever message
it carries; the carried message is surfaced only by the top-level error
directive of C7. -/
theorem c6_error_record_generic (tools : List Tool)
    (resources prompts : List String) (resourceRead : Json → Json)
    (acc rest : List Json) (m : String) :
    Mcp.dispatchActions tools resources prompts resourceRead acc
        ((ActionRecord.error m).toJson :: rest)
      = Mcp.dispatchActions tools resources prompts resourceRead
          (acc ++ [.str "Error: Invalid action error"]) rest := rfl

/-- The name scan of the mcp dispatcher on a non-dict tool input: one
invalid-input entry per name match, then the unconditional not-found
entry of lines 206-207. -/
theorem scanTools_nonobj (tools : List Tool) (n : String) (i : Json)
    (hni : i.isObj = false) :
    Mcp.scanTools tools (.str n) i
      = .inr ((tools.filter (fun t => n == t.name)).map
                (fun _ => Json.str ("Error: Invalid tool input for " ++ n))
              ++ [Json.str ("Error: Tool " ++ n ++ " not found")]) := by
  induction tools with
  | nil => simp [Mcp.scanTools, pyStr]
  | cons t ts ih =>
    by_cases hb : n = t.name
    · subst hb
      simp [Mcp.scanTools, Json.eqStr, hni, ih, pyStr, -List.map_const, -List.map_const']
    · simp [Mcp.scanTools, Json.eqStr, hb, ih]

/-- C9 counterexample: a tool record whose name matches the catalog but
whose input is not a dict contributes the invalid-input entry AND a
not-found entry, because lines 206-207 of src/mcp_agent.py run whenever
the scan loop does not return; the claimed single-entry handling does
not hold. -/
theorem c9_counterexample :
    Mcp.dispatchActions [⟨"list_all_wells", "d"⟩] [] [] (fun _ => Json.obj []) []
        [(ActionRecord.invoke_tool "list_all_wells" (.num 5)).toJson]
      = .ok (.inr [.str "Error: Invalid tool input for list_all_wells",
                   .str "Error: Tool list_all_wells not found"])
    ∧ Mcp.dispatchActions [⟨"list_all_wells", "d"⟩] [] [] (fun _ => Json.obj []) []
        [(ActionRecord.invoke_tool "list_all_wells" (.num 5)).toJson]
      ≠ .ok (.inr [.str "Error: Invalid tool input for list_all_wells"]) := by
  refine ⟨rfl, ?_⟩
  intro h
  rw [show Mcp.dispatchActions [⟨"list_all_wells", "d"⟩] [] [] (fun _ => Json.obj []) []
        [(ActionRecord.invoke_tool "list_all_wells" (.num 5)).toJson]
      = .ok (.inr [.str "Error: Invalid tool input for list_all_wells",
                   .str "Error: Tool list_all_wells not found"]) from rfl] at h
  simp at h

/-- C9 as amended: a tool record with a name matching the catalog and a
non-dict input contributes one invalid-input entry per matching catalog
tool followed by a not-found entry (the fall-through of lines 206-207),
and never a tool-invocation request. -/
theorem c9_invalid_input_entries (tools : List Tool)
    (resources prompts : List String) (resourceRead : Json → Json)
    (acc rest : List Json) (n : String) (i : Json)
    (hmatch : tools.any (fun t => n == t.name) = true)
    (hni : i.isObj = false) :
    Mcp.dispatchActions tools resources prompts resourceRead acc
        ((ActionRecord.invoke_tool n i).toJson :: rest)
      = Mcp.dispatchActions tools resources prompts resourceRead
          (acc ++ ((tools.filter (fun t => n == t.name)).map
                     (fun _ => Json.str ("Error: Invalid tool input for " ++ n))
                   ++ [Json.str ("Error: Tool " ++ n ++ " not found")])) rest := by
  have hs := scanTools_nonobj tools n i hni
  have hstep : Mcp.dispatchActions tools resources prompts resourceRead acc
      ((ActionRecord.invoke_tool n i).toJson :: rest)
    = match Mcp.scanTools tools (.str n) i with
      | .inl act => .ok (.inl act)
      | .inr entries =>
          Mcp.dispatchActions tools resources prompts resourceRead (acc ++ entries) rest := rfl
  rw [hstep, hs]

/-- Witness for the amended C9 at a one-tool catalog and an integer
input. -/
theorem c9_witness :
    Mcp.dispatchActions [⟨"list_all_wells", "d"⟩] [] [] (fun _ => Json.obj []) []
        ((ActionRecord.invoke_tool "list_all_wells" (.num 5)).toJson :: [])
      = Mcp.dispatchActions [⟨"list_all_wells", "d"⟩] [] [] (fun _ => Json.obj [])
          ([] ++ (([(⟨"list_all_wells", "d"⟩ : Tool)].filter
                     (fun t => "list_all_wells" == t.name)).map
                    (fun _ => Json.str ("Error: Invalid tool input for " ++ "list_all_wells"))
                  ++ [Json.str ("Error: Tool " ++ "list_all_wells" ++ " not found")])) [] :=
  c9_invalid_input_entries [⟨"list_all_wells", "d"⟩] [] [] (fun _ => Json.obj [])
    [] [] "list_all_wells" (.num 5) rfl rfl

/-- The name scan returns the AgentAction of the first matching tool
when the input is a dict and some catalog tool carries the name. -/
theorem scanTools_match (tools : List Tool) (n : String) (i : Json)
    (hobj : i.isObj = true)
    (hmatch : tools.any (fun t => t.name == n) = true) :
    Mcp.scanTools tools (.str n) i
      = .inl (.action n i ("Executor: Invoking " ++ n)) := by
  induction tools with
  | nil => simp at hmatch
  | cons t ts ih =>
    by_cases hb : n = t.name
    · subst hb
      simp [Mcp.scanTools, Json.eqStr, hobj]
    · have hne : (t.name == n) = false := beq_eq_false_iff_ne.mpr (fun e => hb e.symm)
      have hmatch' : ts.any (fun t => t.name == n) = true := by
        rw [List.any_cons, hne] at hmatch
        simpa using hmatch
      have hne2 : (n == t.name) = false := beq_eq_false_iff_ne.mpr hb
      simp [Mcp.scanTools, Json.eqStr, hne2, ih hmatch']

/-- The name scan falls through to the single not-found entry when no
catalog tool carries the name. -/
theorem scanTools_nomatch (tools : List Tool) (n : String) (i : Json)
    (h : tools.any (fun t => t.name == n) = false) :
    Mcp.scanTools tools (.str n) i
      = .inr [.str ("Error: Tool " ++ n ++ " not found")] := by
  induction tools with
  | nil => simp [Mcp.scanTools, pyStr]
  | cons t ts ih =>
    rw [List.any_cons, Bool.or_eq_false_iff] at h
    obtain ⟨h1, h2⟩ := h
    have hne2 : (n == t.name) = false := by
      rw [beq_eq_false_iff_ne] at h1 ⊢
      exact fun e => h1 e.symm
    simp [Mcp.scanTools, Json.eqStr, hne2, ih h2]

/-- Processing one record that does not trigger the short-circuit rule
only extends the accumulated dispatch result and moves on. -/
theorem dispatch_step (tools : List Tool) (res prompts : List String)
    (oracle : Json → Json) (r : ActionRecord)
    (h : shortCircuits tools r = false) :
    ∃ es, ∀ acc rest,
      Mcp.dispatchActions tools res prompts oracle acc (r.toJson :: rest)
        = Mcp.dispatchActions tools res prompts oracle (acc ++ es) rest := by
  cases r with
  | list k =>
    by_cases h1 : k = "tools"
    · subst h1
      refine ⟨(if tools.isEmpty then [Json.str "No tools available"]
               else tools.map (fun t => Json.str (t.name ++ ": " ++ t.description))), ?_⟩
      intro acc rest
      rfl
    · by_cases h2 : k = "resources"
      · subst h2
        refine ⟨(if res.isEmpty then [Json.str "No resources available"]
                 else res.map Json.str), ?_⟩
        intro acc rest
        rfl
      · by_cases h3 : k = "prompts"
        · subst h3
          refine ⟨(if prompts.isEmpty then [Json.str "No prompts available"]
                   else prompts.map Json.str), ?_⟩
          intro acc rest
          rfl
        · refine ⟨[.str ("Error: Invalid list type " ++ k)], fun acc rest => ?_⟩
          have hstep : Mcp.dispatchActions tools res prompts oracle acc
              ((ActionRecord.list k).toJson :: rest)
            = (if (k == "tools") = true then
                 Mcp.dispatchActions tools res prompts oracle
                   (acc ++ (if tools.isEmpty then [.str "No tools available"]
                            else tools.map (fun t => .str (t.name ++ ": " ++ t.description)))) rest
               else if (k == "resources") = true then
                 Mcp.dispatchActions tools res prompts oracle
                   (acc ++ (if res.isEmpty then [.str "No resources available"]
                            else res.map .str)) rest
               else if (k == "prompts") = true then
                 Mcp.dispatchActions tools res prompts oracle
                   (acc ++ (if prompts.isEmpty then [.str "No prompts available"]
                            else prompts.map .str)) rest
               else
                 Mcp.dispatchActions tools res prompts oracle
                   (acc ++ [.str ("Error: Invalid list type " ++ k)]) rest) := rfl
          rw [hstep, beq_eq_false_iff_ne.mpr h1, beq_eq_false_iff_ne.mpr h2,
            beq_eq_false_iff_ne.mpr h3]
          simp
  | invoke_tool n i =>
    simp only [shortCircuits, Bool.and_eq_false_iff] at h
    by_cases hobj : i.isObj = true
    · have hmatch : tools.any (fun t => t.name == n) = false := by
        rcases h with h | h
        · rw [hobj] at h; simp at h
        · exact h
      refine ⟨[.str ("Error: Tool " ++ n ++ " not found")], fun acc rest => ?_⟩
      have hstep : Mcp.dispatchActions tools res prompts oracle acc
          ((ActionRecord.invoke_tool n i).toJson :: rest)
        = match Mcp.scanTools tools (.str n) i with
          | .inl act => .ok (.inl act)
          | .inr entries =>
              Mcp.dispatchActions tools res prompts oracle (acc ++ entries) rest := rfl
      rw [hstep, scanTools_nomatch tools n i hmatch]
    · have hni : i.isObj = false := by
        cases hv : i.isObj
        · rfl
        · exact absurd hv hobj
      refine ⟨((tools.filter (fun t => n == t.name)).map
                 (fun _ => Json.str ("Error: Invalid tool input for " ++ n))
               ++ [Json.str ("Error: Tool " ++ n ++ " not found")]), fun acc rest => ?_⟩
      have hstep : Mcp.dispatchActions tools res prompts oracle acc
          ((ActionRecord.invoke_tool n i).toJson :: rest)
        = match Mcp.scanTools tools (.str n) i with
          | .inl act => .ok (.inl act)
          | .inr entries =>
              Mcp.dispatchActions tools res prompts oracle (acc ++ entries) rest := rfl
      rw [hstep, scanTools_nonobj tools n i hni]
  | read_resource u =>
    by_cases hu : u = ""
    · subst hu
      exact ⟨[.str "Error: No resource URI provided"], fun acc rest => rfl⟩
    · refine ⟨[oracle (.str u)], fun acc rest => ?_⟩
      have hstep : Mcp.dispatchActions tools res prompts oracle acc
          ((ActionRecord.read_resource u).toJson :: rest)
        = (if (u != "") = true then
             Mcp.dispatchActions tools res prompts oracle (acc ++ [oracle (.str u)]) rest
           else
             Mcp.dispatchActions tools res prompts oracle
               (acc ++ [.str "Error: No resource URI provided"]) rest) := rfl
      rw [hstep]
      simp [hu]
  | error m =>
    exact ⟨[.str "Error: Invalid action error"], fun acc rest => rfl⟩

/-- C2: the first record tagged for tool invocation whose name matches a
catalog tool and whose input is a dict terminates dispatch immediately
with the tool-invocation request for that tool and input, whatever
records (well-formed or not) follow it. -/
theorem c2_short_circuit (tools : List Tool) (res prompts : List String)
    (oracle : Json → Json) (pre : List ActionRecord) (post : List Json)
    (n : String) (i : Json) (acc : List Json)
    (hobj : i.isObj = true)
    (hmatch : tools.any (fun t => t.name == n) = true)
    (hpre : ∀ r ∈ pre, shortCircuits tools r = false) :
    Mcp.dispatchActions tools res prompts oracle acc
        (pre.map ActionRecord.toJson ++ (ActionRecord.invoke_tool n i).toJson :: post)
      = .ok (.inl (.action n i ("Executor: Invoking " ++ n))) := by
  revert hpre
  induction pre generalizing acc with
  | nil =>
    intro _
    simp only [List.map_nil, List.nil_append]
    have hstep : Mcp.dispatchActions tools res prompts oracle acc
        ((ActionRecord.invoke_tool n i).toJson :: post)
      = match Mcp.scanTools tools (.str n) i with
        | .inl act => .ok (.inl act)
        | .inr entries =>
            Mcp.dispatchActions tools res prompts oracle (acc ++ entries) post := rfl
    rw [hstep, scanTools_match tools n i hobj hmatch]
  | cons r pre ih =>
    intro hpre
    simp only [List.map_cons, List.cons_append]
    obtain ⟨es, he⟩ := dispatch_step tools res prompts oracle r
      (hpre r (List.mem_cons_self r pre))
    rw [he acc (pre.map ActionRecord.toJson ++ (ActionRecord.invoke_tool n i).toJson :: post)]
    exact ih (acc ++ es) (fun r' hr' => hpre r' (List.mem_cons_of_mem _ hr'))

/-- Witness for C2: a list record precedes the matched tool record and
an ill-formed null trails it; dispatch still returns the invocation
request for list_all_wells with empty params. -/
theorem c2_witness :
    Mcp.dispatchActions [⟨"list_all_wells", "d"⟩] [] [] (fun _ => Json.obj []) []
        ([ActionRecord.list "tools"].map ActionRecord.toJson
          ++ (ActionRecord.invoke_tool "list_all_wells" (.obj [])).toJson :: [Json.null])
      = .ok (.inl (.action "list_all_wells" (.obj [])
          ("Executor: Invoking " ++ "list_all_wells"))) :=
  c2_short_circuit [⟨"list_all_wells", "d"⟩] [] [] (fun _ => Json.obj [])
    [ActionRecord.list "tools"] [Json.null] "list_all_wells" (.obj []) []
    rfl rfl (by decide)

/-- A decision value on which the mcp plan body cannot raise: a dict
whose actions entry, when present, is a list of dicts. -/
def decisionWellShaped (g : Json) : Bool :=
  match g with
  | .obj kvs =>
    match kvs.lookup "actions" with
    | none => true
    | some (.arr xs) => xs.all Json.isObj
    | some _ => false
  | _ => false

/-- The dispatch loop never raises on a sequence of dict records. -/
theorem dispatchActions_isOk (tools : List Tool) (res prompts : List String)
    (oracle : Json → Json) :
    ∀ (items acc : List Json), items.all Json.isObj = true →
    (Mcp.dispatchActions tools res prompts oracle acc items).isOk = true := by
  intro items
  induction items with
  | nil => intro acc _; rfl
  | cons item rest ih =>
    intro acc hall
    rw [List.all_cons, Bool.and_eq_true] at hall
    obtain ⟨hi, hr⟩ := hall
    cases item with
    | obj kvs =>
      simp only [Mcp.dispatchActions]
      repeat' first
        | exact ih _ hr
        | rfl
        | split
    | null => simp [Json.isObj] at hi
    | bool b => simp [Json.isObj] at hi
    | num v => simp [Json.isObj] at hi
    | str s => simp [Json.isObj] at hi
    | arr xs => simp [Json.isObj] at hi

/-- C1 counterexample: a decision value that is a JSON object (the very
shape the completion endpoint is asked to force) whose actions entry is
a number makes plan raise a TypeError at the for loop over actions; the
exception escapes plan, so the core does not always produce a final
payload. -/
theorem c1_counterexample :
    Mcp.plan [] [] [] (.obj [("actions", .num 5)]) (.obj []) (fun _ => Json.obj [])
      = .error .typeError := rfl

/-- C1 as amended: plan terminates with a final payload and raises
nothing provided the decision value is a dict whose actions entry, when
present, is a list of dicts (mcp variant), respectively provided the
decision value is a dict (osdu variant); outside those shapes an
AttributeError or TypeError escapes, as the counterexample shows. -/
theorem c1_plan_total :
    (∀ (tools : List Tool) (res prompts : List String) (grok fmt : Json)
       (oracle : Json → Json), decisionWellShaped grok = true →
       (Mcp.plan tools res prompts grok fmt oracle).isOk = true)
    ∧ (∀ (tools : List Tool) (res prompts : List String) (grok : Json)
         (oracle : Json → Json), grok.isObj = true →
         (Osdu.plan tools res prompts grok oracle).isOk = true) := by
  constructor
  · intro tools res prompts grok fmt oracle h
    cases grok with
    | obj kvs =>
      simp only [decisionWellShaped] at h
      simp only [Mcp.plan]
      by_cases he : (((kvs.lookup "action").getD .null).eqStr "error") = true
      · simp [he, Except.isOk, Except.toBool]
      · rw [Bool.not_eq_true] at he
        rw [he]
        simp only [Bool.false_eq_true, if_false]
        cases ha : kvs.lookup "actions" with
        | none =>
          have htot := dispatchActions_isOk tools res prompts oracle
            [Mcp.singleRecord kvs] [] rfl
          cases hd : Mcp.dispatchActions tools res prompts oracle []
              [Mcp.singleRecord kvs] with
          | error e => rw [hd] at htot; simp [Except.isOk, Except.toBool] at htot
          | ok v =>
            cases v with
            | inl act => simp [ha, pyIter, hd, Except.isOk, Except.toBool]
            | inr combined => simp [ha, pyIter, hd, Except.isOk, Except.toBool]
        | some v =>
          rw [ha] at h
          cases v with
          | arr xs =>
            have htot := dispatchActions_isOk tools res prompts oracle xs [] h
            cases hd : Mcp.dispatchActions tools res prompts oracle [] xs with
            | error e => rw [hd] at htot; simp [Except.isOk, Except.toBool] at htot
            | ok w =>
              cases w with
              | inl act => simp [ha, pyIter, hd, Except.isOk, Except.toBool]
              | inr combined => simp [ha, pyIter, hd, Except.isOk, Except.toBool]
          | null => simp at h
          | bool b => simp at h
          | num m => simp at h
          | str s => simp at h
          | obj kvs2 => simp at h
    | null => simp [decisionWellShaped] at h
    | bool b => simp [decisionWellShaped] at h
    | num m => simp [decisionWellShaped] at h
    | str s => simp [decisionWellShaped] at h
    | arr xs => simp [decisionWellShaped] at h
  · intro tools res prompts grok oracle h
    cases grok with
    | obj kvs =>
      simp only [Osdu.plan]
      repeat' first
        | rfl
        | split
    | null => simp [Json.isObj] at h
    | bool b => simp [Json.isObj] at h
    | num m => simp [Json.isObj] at h
    | str s => simp [Json.isObj] at h
    | arr xs => simp [Json.isObj] at h

/-- Witness for the amended C1 at an empty-dict decision value for both
variants. -/
theorem c1_witness :
    (Mcp.plan [] [] [] (.obj []) (.obj []) (fun _ => Json.obj [])).isOk = true
    ∧ (Osdu.plan [] [] [] (.obj []) (fun _ => Json.obj [])).isOk = true :=
  ⟨c1_plan_total.1 [] [] [] (.obj []) (.obj []) (fun _ => Json.obj []) rfl,
   c1_plan_total.2 [] [] [] (.obj []) (fun _ => Json.obj []) rfl⟩
